import Mathlib

/-!
Verification of the SimplyHired job scraper against its natural-language
specification.  The definitions below are a shallow embedding of the
JavaScript sources (src/src/main.js and the two unnamed actor variants,
called P0 and P1 here, after src/unnamed/part_000 and part_001).  Handlers
become pure functions over an explicit crawl state; network and DOM results
enter as explicit inputs of the handler functions.
-/

namespace SH

/-! ## Basic string helpers (JavaScript semantics) -/

/-- JavaScript `a || b` on strings: the empty string is falsy. -/
def jsOr (a b : String) : String := if a = "" then b else a

/-- JavaScript truthiness of a nullable string: null and the empty string
are falsy. -/
def strTruthy (o : Option String) : Bool :=
  match o with
  | none => false
  | some s => s != ""

/-- Reads an optional (possibly undefined) string the way JavaScript string
coercion in `(text || '')` does. -/
def optStr (o : Option String) : String := o.getD ""

/-- `listLeads a b` holds when the char list `a` is an initial segment of
`b`.  Structural recursion keeps it kernel-reducible. -/
def listLeads : List Char → List Char → Bool
  | [], _ => true
  | _ :: _, [] => false
  | a :: as, b :: bs => a == b && listLeads as bs

/-- Embedding of JavaScript `s.startsWith(pre)`. -/
def jsStartsWith (s pre : String) : Bool := listLeads pre.data s.data

/-- `listHasSub sub l` holds when `sub` occurs as a contiguous sublist of
`l`. -/
def listHasSub (sub : List Char) : List Char → Bool
  | [] => sub.isEmpty
  | c :: rest => listLeads sub (c :: rest) || listHasSub sub rest

/-- Embedding of JavaScript `s.includes(sub)`. -/
def hasSub (s sub : String) : Bool := listHasSub sub.data s.data

/-- Splits a char list into maximal whitespace-free words (`acc` is the
current word, reversed). -/
def wsWordsAux : List Char → List Char → List String
  | [], acc => if acc.isEmpty then [] else [String.mk acc.reverse]
  | c :: rest, acc =>
    if c.isWhitespace then
      if acc.isEmpty then wsWordsAux rest []
      else String.mk acc.reverse :: wsWordsAux rest []
    else wsWordsAux rest (c :: acc)

/-- Embedding of the P0/P1 helper
`cleanText = (text) => (text || '').replace(/\s+/g, ' ').trim()`:
whitespace runs collapse to a single space and the ends are trimmed. -/
def cleanText (s : String) : String :=
  String.intercalate " " (wsWordsAux s.data [])

/-! ## URL normalizer `absolute` (same code in main.js, P0 and P1) -/

/-- Embedding of
`absolute = (href) => \x7b if (!href) return null; if (href.startsWith('http'))
return href; if (href.startsWith('/')) return base + href;
return base + '/' + href; \x7d`.  The argument is `Option String` because the
JavaScript input may be undefined. -/
def absolute (href : Option String) : Option String :=
  match href with
  | none => none
  | some h =>
    if h = "" then none
    else if jsStartsWith h "http" then some h
    else if jsStartsWith h "/" then some ("https://www.simplyhired.com" ++ h)
    else some ("https://www.simplyhired.com/" ++ h)

/-! ## Backoff (P0/P1 listing and detail handlers) -/

/-- Pre-jitter listing backoff:
`Math.min(5000, 500 * Math.pow(2, retry))` in milliseconds. -/
def listBackoffBase (retry : Nat) : Nat := min 5000 (500 * 2 ^ retry)

/-- Pre-jitter detail backoff:
`Math.min(6000, 700 * Math.pow(2, retry))` in milliseconds. -/
def detailBackoffBase (retry : Nat) : Nat := min 6000 (700 * 2 ^ retry)

/-! ## Blocking classification (P0/P1 fetch path) -/

/-- Embedding of `isBlockedStatus = (code) => code === 403 || code === 429`
(identical in part_000 line 43 and part_001 line 45). -/
def isBlockedStatus (code : Nat) : Bool := code == 403 || code == 429

/-- The condition under which the handlers refetch with got-scraping:
`isBlockedStatus(status) || html.length < 800`. -/
def refetchTriggered (status bodyLen : Nat) : Bool :=
  isBlockedStatus status || decide (bodyLen < 800)

/-- The backoff sleep and session retirement run only inside the refetch
branch and only when the status itself is a blocked status. -/
def backoffAndRotate (status bodyLen : Nat) : Bool :=
  refetchTriggered status bodyLen && isBlockedStatus status

/-- Claim-side definition, following the claim wording for C4: BLOCKED
exactly when the status is 403, 429 or 503, or the body is below a
minimum-length threshold. -/
def c4ClaimBlocked (status bodyLen minLen : Nat) : Bool :=
  status == 403 || status == 429 || status == 503 || decide (bodyLen < minLen)

/-! ## Listing records -/

/-- A partial job record extracted from a listing page (the shape pushed by
the listing extraction in all three variants). -/
structure Job where
  title : String
  company : String
  location : String
  summary : String
  salary : String
  link : String
deriving DecidableEq

/-! ## The main.js crawl machine (router handlers over global counters)

The four global counters of src/src/main.js become `CrawlState`; the input
limits (`crawler.maxJobs`, `crawler.maxPagesPerList` as read inside the
handlers) become `Config`.  The content a URL serves, and the outcome of
extracting it, are supplied by an environment `Env`: `listing u` is the
extraction result of the listing page at `u` (html length, the job cards
that survive the truthy title-and-link filter, and the detected
next-page href), and `detailBlocked u` says whether the detail handler at
`u` takes its throw path (block page or any parsing error). -/

structure ListingContent where
  htmlLen : Nat
  jobs : List Job
  nextHref : Option String
deriving DecidableEq

structure Env where
  listing : String → ListingContent
  detailBlocked : String → Bool

structure Config where
  maxJobs : Nat
  maxPages : Nat
deriving DecidableEq

structure CrawlState where
  jobsProcessed : Nat
  pagesProcessed : Nat
  savedJobs : Nat
  crawlerTerminated : Bool
deriving DecidableEq

inductive CrawlTask where
  | list (url : String)
  | detail (url : String)
deriving DecidableEq

/-- Embedding of the main.js default (LIST) handler.  It increments
`pagesProcessed` on entry, applies the early-exit guards in source order
(enqueued-count guard, page-limit guard, short-html guard, empty-extraction
guards), then admits `min(jobs.length, max(0, maxJobs - savedJobs))` jobs
as DETAIL tasks and follows pagination when a next href was detected and
both budgets still have room. -/
def handleList (cfg : Config) (env : Env) (st : CrawlState) (url : String) :
    CrawlState × List CrawlTask :=
  let pg := env.listing url
  let st1 := { st with pagesProcessed := st.pagesProcessed + 1 }
  if cfg.maxJobs ≤ st.jobsProcessed ∨ st.crawlerTerminated = true then (st1, [])
  else if cfg.maxPages < st.pagesProcessed + 1 then (st1, [])
  else if pg.htmlLen < 1000 then (st1, [])
  else if pg.jobs = [] then (st1, [])
  else
    let remainingCapacity := cfg.maxJobs - st.savedJobs
    let jobsToProcess := min pg.jobs.length remainingCapacity
    if remainingCapacity = 0 ∨ st.crawlerTerminated = true then (st1, [])
    else
      let detailTasks := (pg.jobs.take jobsToProcess).filterMap
        (fun j => (absolute (some j.link)).map CrawlTask.detail)
      let st2 := { st with pagesProcessed := st.pagesProcessed + 1,
                           jobsProcessed := st.jobsProcessed + jobsToProcess }
      let nextTasks :=
        if strTruthy pg.nextHref = true ∧
            st.jobsProcessed + jobsToProcess < cfg.maxJobs ∧
            st.pagesProcessed + 1 < cfg.maxPages then
          match absolute pg.nextHref with
          | some u => [CrawlTask.list u]
          | none => []
        else []
      (st2, detailTasks ++ nextTasks)

/-- Embedding of the main.js DETAIL handler, counters only: early return
once `savedJobs` has reached the target or the crawler has terminated;
a detected block page (or any extraction error) rethrows without saving;
otherwise one record is persisted, both counters advance, and the
termination flag is set when the target is reached. -/
def handleDetail (cfg : Config) (env : Env) (st : CrawlState) (url : String) :
    CrawlState × List CrawlTask :=
  if cfg.maxJobs ≤ st.savedJobs ∨ st.crawlerTerminated = true then (st, [])
  else if env.detailBlocked url then (st, [])
  else if cfg.maxJobs ≤ st.savedJobs + 1 ∧ st.crawlerTerminated = false then
    ({ st with savedJobs := st.savedJobs + 1,
               jobsProcessed := st.jobsProcessed + 1,
               crawlerTerminated := true }, [])
  else
    ({ st with savedJobs := st.savedJobs + 1,
               jobsProcessed := st.jobsProcessed + 1 }, [])

def handleTask (cfg : Config) (env : Env) (st : CrawlState) :
    CrawlTask → CrawlState × List CrawlTask
  | .list url => handleList cfg env st url
  | .detail url => handleDetail cfg env st url

/-- One step of the particular schedule in which every handler invocation
runs to completion uninterrupted: the handler of the queue head runs as a
whole and the tasks it enqueued are appended.  This is one realizable
schedule of the concurrent crawler, used to exhibit concrete traces; the
interleaved model below (`cstep`) is the general one. -/
def stepQueue (cfg : Config) (env : Env) :
    CrawlState × List CrawlTask → CrawlState × List CrawlTask
  | (st, []) => (st, [])
  | (st, t :: ts) =>
    let r := handleTask cfg env st t
    (r.1, ts ++ r.2)

/-- Fueled execution of the uninterrupted schedule, for concrete traces. -/
def runCrawl (cfg : Config) (env : Env) :
    Nat → CrawlState × List CrawlTask → CrawlState × List CrawlTask
  | 0, s => s
  | n + 1, s => runCrawl cfg env n (stepQueue cfg env s)

/-- The initial global state of main.js. -/
def initState : CrawlState := ⟨0, 0, 0, false⟩

/-! ## The interleaved crawl model

The real crawler runs handlers concurrently (`maxConcurrency` defaults to
15 in main.js).  Inside the DETAIL handler the entry guard
`if (savedJobs >= maxJobs || crawlerTerminated) return` (line 278) is
separated from `await Dataset.pushData(jobData)` (line 527) and the
increments `savedJobs++; jobsProcessed++` (lines 528-529) by that awaited
push, a suspension point.  The model therefore splits the detail handler
into two phases: entering it runs the guard and the block check and, when
both pass, leaves a suspended save behind (`pending`); a separate `fire`
action completes one suspended save, persisting the record and running the
increments and the termination check.  The listing handler does not touch
`savedJobs`, so it is kept whole.  The ghost field `peak` records the
largest number of detail handlers that were ever simultaneously suspended
between their guard and their increment. -/

structure CCrawl where
  st : CrawlState
  queued : List CrawlTask
  pending : Nat
  peak : Nat
deriving DecidableEq

/-- A scheduler action: start or process the i-th queued task, or resume
one suspended detail save. -/
inductive CAct where
  | task (i : Nat)
  | fire
deriving DecidableEq

/-- The tail of the detail handler after the awaited push (main.js lines
527-535): persist, increment both counters, set the termination flag when
the target is reached. -/
def detailFinish (cfg : Config) (st : CrawlState) : CrawlState :=
  if cfg.maxJobs ≤ st.savedJobs + 1 ∧ st.crawlerTerminated = false then
    { st with savedJobs := st.savedJobs + 1,
              jobsProcessed := st.jobsProcessed + 1,
              crawlerTerminated := true }
  else
    { st with savedJobs := st.savedJobs + 1,
              jobsProcessed := st.jobsProcessed + 1 }

/-- One interleaved step.  A listing task runs whole; a detail task runs
its guard and block check and, passing both, becomes a suspended save; a
`fire` action completes one suspended save. -/
def cstep (cfg : Config) (env : Env) (c : CCrawl) : CAct → CCrawl
  | .task i =>
    match c.queued[i]? with
    | none => c
    | some (CrawlTask.list url) =>
      let r := handleList cfg env c.st url
      ⟨r.1, c.queued.eraseIdx i ++ r.2, c.pending, c.peak⟩
    | some (CrawlTask.detail url) =>
      if cfg.maxJobs ≤ c.st.savedJobs ∨ c.st.crawlerTerminated = true then
        ⟨c.st, c.queued.eraseIdx i, c.pending, c.peak⟩
      else if env.detailBlocked url then
        ⟨c.st, c.queued.eraseIdx i, c.pending, c.peak⟩
      else
        ⟨c.st, c.queued.eraseIdx i, c.pending + 1, max c.peak (c.pending + 1)⟩
  | .fire =>
    match c.pending with
    | 0 => c
    | p + 1 => ⟨detailFinish cfg c.st, c.queued, p, c.peak⟩

/-- Execution of an arbitrary interleaving schedule. -/
def crun (cfg : Config) (env : Env) : CCrawl → List CAct → CCrawl
  | c, [] => c
  | c, a :: acts => crun cfg env (cstep cfg env c a) acts

/-- The invariant that actually holds of the concurrent detail path:
persisted records plus suspended saves stay below the target plus the peak
number of simultaneously suspended saves.  In particular, as long as no
two detail handlers are ever simultaneously between guard and increment
(peak at most one), persisted records never exceed the target. -/
def savedInv (cfg : Config) (c : CCrawl) : Prop :=
  (c.st.savedJobs = 0 ∧ c.pending = 0) ∨
  c.st.savedJobs + c.pending + 1 ≤ cfg.maxJobs + c.peak

/-! ## Admission arithmetic (claim C2) -/

/-- main.js line 196: `Math.max(0, maxJobs - savedJobs)` (Nat subtraction
is the max with 0). -/
def remainingCapacityMain (maxJobs savedJobs : Nat) : Nat := maxJobs - savedJobs

/-- main.js line 197: `Math.min(jobs.length, remainingCapacity)`. -/
def admitMain (n maxJobs savedJobs : Nat) : Nat :=
  min n (remainingCapacityMain maxJobs savedJobs)

/-- Claim-side definition, following the claim wording for C2:
`admit` returns `min(n, target - recordsPersisted - detailTasksInFlight)`. -/
def admitClaim (n target persisted inFlight : Int) : Int :=
  min n (target - persisted - inFlight)

/-! ## The P0 (part_000) listing handler

The extraction results on the finally-used body (the refetched body when
the refetch was triggered) enter as the `jsonJobs`/`htmlJobs` fields. -/

structure P0In where
  status : Nat
  bodyLen : Nat
  refetchStatus : Nat
  refetchBodyLen : Nat
  jsonJobs : List Job
  jsonNextUrl : Option String
  htmlJobs : List Job
  htmlNextUrl : Option String
deriving DecidableEq

structure P0State where
  pagesProcessed : Nat
  enqueuedDetails : Nat
  savedJobs : Nat
deriving DecidableEq

structure P0Result where
  st : P0State
  detailUrls : List String
  nextListUrl : Option String
deriving DecidableEq

/-- Outcome of a P0 handler invocation: normal return or a thrown error. -/
inductive P0Out where
  | ok (r : P0Result)
  | blocked (msg : String)
deriving DecidableEq

/-- The HTTP status that the rest of the P0 handler sees: the refetched
status when `isBlockedStatus(status) || html.length < 800`, the original
status otherwise. -/
def finalStatusP0 (inp : P0In) : Nat :=
  if refetchTriggered inp.status inp.bodyLen then inp.refetchStatus else inp.status

/-- The P0 listing extraction cascade: jobs and next URL come from the
embedded-JSON strategy when it produced at least one record, and from the
HTML strategy otherwise. -/
def cascadeP0 (jsonJobs : List Job) (jsonNextUrl : Option String)
    (htmlJobs : List Job) (htmlNextUrl : Option String) :
    List Job × Option String :=
  if jsonJobs = [] then (htmlJobs, htmlNextUrl) else (jsonJobs, jsonNextUrl)

/-- Embedding of the part_000 default (LIST) handler: page counter,
page-limit early return, refetch-or-keep of the response, throw on a
(still) blocked status, extraction cascade, no-data early return,
capacity-sliced admission of detail tasks, and cursor pagination. -/
def handleListP0 (cfg : Config) (st : P0State) (inp : P0In) : P0Out :=
  let st1 := { st with pagesProcessed := st.pagesProcessed + 1 }
  let capacity := cfg.maxJobs - st.savedJobs
  if cfg.maxPages < st.pagesProcessed + 1 then .ok ⟨st1, [], none⟩
  else if isBlockedStatus (finalStatusP0 inp) then .blocked "Blocked on list page"
  else
    let jn := cascadeP0 inp.jsonJobs inp.jsonNextUrl inp.htmlJobs inp.htmlNextUrl
    if jn.1 = [] then .ok ⟨st1, [], none⟩
    else
      let limited := jn.1.take capacity
      if limited = [] then .ok ⟨st1, [], none⟩
      else
        let urls := limited.filterMap (fun j => absolute (some j.link))
        let st2 := { st with pagesProcessed := st.pagesProcessed + 1,
                             enqueuedDetails := st.enqueuedDetails + urls.length }
        let next :=
          if strTruthy jn.2 = true ∧ st.savedJobs < cfg.maxJobs ∧
              st.pagesProcessed + 1 < cfg.maxPages then
            absolute jn.2
          else none
        .ok ⟨st2, urls, next⟩

/-! ## The P1 (part_001) listing cascade

Inputs: the buildId in effect after the handler possibly learned one from
the embedded payload; the page counter value; the three strategy outcomes
(embedded __NEXT_DATA__, internal Next.js API, HTML heuristics).  The API
outcome is what `fetchNextJsApi` would return if consulted. -/

structure CascadeInP1 where
  buildId : Option String
  pages : Nat
  ndJobs : List Job
  ndCursor : Option String
  apiJobs : List Job
  apiCursor : Option String
  htmlJobs : List Job
  htmlNextUrl : Option String
deriving DecidableEq

/-- Embedding of the part_001 strategy selection (lines 395-429): take the
embedded payload first; consult the internal API when a buildId is known
and either nothing was extracted or a cursor exists past page one, letting
a non-empty API result replace the current one; fall back to HTML only
when still empty.  Returns (jobs, nextCursor, htmlNextUrl). -/
def cascadeP1 (c : CascadeInP1) : List Job × Option String × Option String :=
  let jobs0 := if c.ndJobs = [] then [] else c.ndJobs
  let cursor0 := if c.ndJobs = [] then none else c.ndCursor
  let useApi := strTruthy c.buildId &&
    (jobs0.isEmpty || (strTruthy cursor0 && decide (1 < c.pages)))
  let jobs1 := if useApi && !c.apiJobs.isEmpty then c.apiJobs else jobs0
  let cursor1 := if useApi && !c.apiJobs.isEmpty then c.apiCursor else cursor0
  if jobs1 = [] then (c.htmlJobs, none, c.htmlNextUrl)
  else (jobs1, cursor1, none)

/-! ## Qualifications (claim C10, main.js lines 466-477)

The list elements stand for the cleaned texts of the
`viewJobQualificationItem` elements in page order. -/

/-- The per-item validity filter of main.js: non-empty after cleaning and
free of css or style artifacts. -/
def validQual (q : String) : Bool :=
  q != "" && !hasSub q "css-" && !hasSub q "var(--"

/-- The collected list: the `.each` loop breaks at the 16th element
(`if (i >= 15) return false`), so only the first 15 items are considered,
and only valid ones are kept. -/
def qualificationsListOf (items : List String) : List String :=
  (items.take 15).filter (fun q => validQual q)

/-- The persisted field: the kept items joined by a comma and space, or the
empty string when none was kept. -/
def qualificationsField (items : List String) : String :=
  if (qualificationsListOf items).length > 0 then
    String.intercalate ", " (qualificationsListOf items)
  else ""

/-! ## Record assembly (claim C3)

A persisted object is a partial map from schema fields to string values:
`none` models a key that is absent from the pushed JavaScript object (and
therefore reads as undefined). -/

structure JobRecord where
  url : Option String
  title : Option String
  company : Option String
  location : Option String
  salary : Option String
  job_type : Option String
  date_posted : Option String
  description_text : Option String
  description_html : Option String
  benefits : Option String
  qualifications : Option String
  source : Option String
  scraped_at : Option String
deriving DecidableEq

/-- The listing metadata carried into the detail handler
(`request.userData.jobMeta`); every field may be absent. -/
structure Meta where
  title : Option String
  company : Option String
  location : Option String
  salary : Option String
  summary : Option String
  job_type : Option String
  date_posted : Option String
deriving DecidableEq

/-- The result of `extractJobFromLdJson`: possibly-empty structured
JobPosting markup fields. -/
structure LdJson where
  title : Option String
  company : Option String
  location : Option String
  salary : Option String
  date_posted : Option String
  description_html : Option String
deriving DecidableEq

/-- The raw selector texts read on the detail page by part_001:
`h1` text, company and location testid texts, compensation text, job-type
text, timestamp text, the description container html (already defaulted to
the empty string and trimmed) and text, and `ldDescText`, the text of the
structured-markup description when present. -/
structure DetailSel where
  h1 : String
  companyTxt : String
  locationTxt : String
  salaryTxt : String
  jobTypeTxt : String
  timestampTxt : String
  descHtml : String
  descText : String
  ldDescText : String
deriving DecidableEq

/-- Embedding of the part_001 DETAIL success path (lines 517-564): each
field takes the structured-markup value, else the selector value, else the
listing metadata, with the explicit fallback block and the final
`|| 'N/A'` defaults of the pushed object literal. -/
def detailRecordP1 (ld : LdJson) (sel : DetailSel) (meta : Meta)
    (url now : String) : JobRecord :=
  let title := cleanText (jsOr (optStr ld.title) (jsOr sel.h1 (optStr meta.title)))
  let company := cleanText (jsOr (optStr ld.company)
    (jsOr sel.companyTxt (optStr meta.company)))
  let location := cleanText (jsOr (optStr ld.location)
    (jsOr sel.locationTxt (optStr meta.location)))
  let salary := cleanText (jsOr (optStr ld.salary)
    (jsOr sel.salaryTxt (optStr meta.salary)))
  let job_type := cleanText (jsOr (optStr meta.job_type) sel.jobTypeTxt)
  let date_posted := cleanText (jsOr (optStr ld.date_posted)
    (jsOr (optStr meta.date_posted) sel.timestampTxt))
  let description_html := jsOr (optStr ld.description_html) sel.descHtml
  let description_text := cleanText
    (if optStr ld.description_html = "" then sel.descText else sel.ldDescText)
  let title := if title = "" then jsOr (cleanText (optStr meta.title)) "N/A" else title
  let company := if company = "" then jsOr (cleanText (optStr meta.company)) "N/A" else company
  let location := if location = "" then jsOr (cleanText (optStr meta.location)) "N/A" else location
  let salary := if salary = "" then jsOr (cleanText (optStr meta.salary)) "" else salary
  let description_text :=
    if description_text = "" then
      jsOr (cleanText description_html) (jsOr (cleanText (optStr meta.summary)) "N/A")
    else description_text
  let description_html := if description_html = "" then optStr meta.summary else description_html
  { url := some url
    title := some (jsOr title "N/A")
    company := some (jsOr company "N/A")
    location := some (jsOr location "N/A")
    salary := some (jsOr salary "N/A")
    job_type := some (jsOr job_type "N/A")
    date_posted := some (jsOr date_posted "N/A")
    description_text := some description_text
    description_html := some description_html
    benefits := some ""
    qualifications := some ""
    source := some "SimplyHired"
    scraped_at := some now }

/-- Embedding of the part_001 DETAIL catch fallback (lines 575-587): the
object literal pushed when the detail fetch failed entirely.  Its literal
has no `benefits` and no `qualifications` key. -/
def fallbackRecordP1 (meta : Meta) (url now : String) : JobRecord :=
  { url := some url
    title := some (jsOr (cleanText (optStr meta.title)) "N/A")
    company := some (jsOr (cleanText (optStr meta.company)) "N/A")
    location := some (jsOr (cleanText (optStr meta.location)) "N/A")
    salary := some (jsOr (cleanText (optStr meta.salary)) "")
    job_type := some (jsOr (optStr meta.job_type) "")
    date_posted := some (jsOr (optStr meta.date_posted) "")
    description_text := some (jsOr (cleanText (optStr meta.summary)) "N/A")
    description_html := some (optStr meta.summary)
    benefits := none
    qualifications := none
    source := some "SimplyHired"
    scraped_at := some now }

/-- Embedding of the main.js `jobData` object literal (lines 506-520),
taking the already-computed candidate strings: every key is present, each
defaulted with `|| 'N/A'` or `|| ''`. -/
def jobDataMain (title company location salary job_type date_posted
    benefits qualifications description_text description_html url now :
    String) : JobRecord :=
  { url := some url
    title := some (jsOr title "N/A")
    company := some (jsOr company "N/A")
    location := some (jsOr location "N/A")
    salary := some (jsOr salary "N/A")
    job_type := some (jsOr job_type "N/A")
    date_posted := some (jsOr date_posted "N/A")
    description_text := some (jsOr description_text "")
    description_html := some (jsOr description_html "")
    benefits := some (jsOr benefits "")
    qualifications := some (jsOr qualifications "")
    source := some "SimplyHired"
    scraped_at := some now }

/-! ## Seed URL construction (claim C8, main.js lines 564-598)

`URLSearchParams` is modelled as an insertion-ordered association list with
`set` semantics, serialized with the form-urlencoding it uses. -/

/-- UTF-8 bytes of a character (for percent-encoding). -/
def utf8Bytes (c : Char) : List Nat :=
  let n := c.toNat
  if n < 128 then [n]
  else if n < 2048 then [192 + n / 64, 128 + n % 64]
  else if n < 65536 then [224 + n / 4096, 128 + (n / 64) % 64, 128 + n % 64]
  else [240 + n / 262144, 128 + (n / 4096) % 64, 128 + (n / 64) % 64, 128 + n % 64]

def hexDigit (n : Nat) : Char :=
  if n < 10 then Char.ofNat (48 + n) else Char.ofNat (55 + n)

def percentByte (b : Nat) : String :=
  "%" ++ String.mk [hexDigit (b / 16), hexDigit (b % 16)]

/-- One character of application/x-www-form-urlencoded output. -/
def formEncodeChar (c : Char) : String :=
  if c = ' ' then "+"
  else if c.isAlphanum ∨ c = '*' ∨ c = '-' ∨ c = '.' ∨ c = '_' then String.mk [c]
  else String.join ((utf8Bytes c).map percentByte)

def formEncode (s : String) : String := String.join (s.data.map formEncodeChar)

/-- `URLSearchParams.set`: replace the value under an existing key, else
append the pair. -/
def uspSet (ps : List (String × String)) (k v : String) : List (String × String) :=
  if ps.any (fun p => p.1 = k) then
    ps.map (fun p => if p.1 = k then (k, v) else p)
  else ps ++ [(k, v)]

/-- `URLSearchParams.toString`. -/
def uspToString (ps : List (String × String)) : String :=
  String.intercalate "&" (ps.map (fun p => formEncode p.1 ++ "=" ++ formEncode p.2))

/-- The parameter construction inside the main.js `buildSearchUrls` loop:
`q` when the keyword is non-empty, `l` when the location parameter is
non-empty, `fdb` when a date filter other than `any` is given, and always
`job` with the empty value. -/
def mkParamsMain (keyword locationParam datePosted : String) :
    List (String × String) :=
  let ps : List (String × String) := []
  let ps := if keyword = "" then ps else uspSet ps "q" keyword
  let ps := if locationParam = "" then ps else uspSet ps "l" locationParam
  let ps := if datePosted ≠ "" ∧ datePosted ≠ "any" then uspSet ps "fdb" datePosted else ps
  uspSet ps "job" ""

/-- `keywords ? keywords.split(',').map(k => k.trim()) : ['']` (main.js
keeps empty entries; the unnamed variants additionally filter them). -/
def keywordListMain (keywords : String) : List String :=
  if keywords = "" then [""] else (keywords.splitOn ",").map (fun k => k.trim)

/-- The location parameter: the remote sentinel when the remote-only flag
is set, else the trimmed location, else empty. -/
def locationParamMain (location : String) (remoteOnly : Bool) : String :=
  if remoteOnly then "Remote"
  else if location = "" then "" else location.trim

def searchBase : String := "https://www.simplyhired.com/search"

/-- Embedding of main.js `buildSearchUrls`: one URL per keyword-list entry,
each the search path with the serialized parameters. -/
def buildSearchUrlsMain (keywords location datePosted : String)
    (remoteOnly : Bool) : List String :=
  (keywordListMain keywords).map (fun keyword =>
    searchBase ++ "?" ++
      uspToString (mkParamsMain keyword (locationParamMain location remoteOnly) datePosted))

/-- Claim-side parameter list, following the claim wording for C8: the
keyword under `q` (when non-empty), the location or remote sentinel under
`l` (when non-empty), the freshness filter under `fdb` only when set and
not `any`.  The trailing `job` parameter that the code always appends is
kept so that the comparison isolates the claimed parameters. -/
def c8ClaimParams (keyword locationParam datePosted : String) :
    List (String × String) :=
  (if keyword ≠ "" then [("q", keyword)] else []) ++
  (if locationParam ≠ "" then [("l", locationParam)] else []) ++
  (if datePosted ≠ "" ∧ datePosted ≠ "any" then [("fdb", datePosted)] else []) ++
  [("job", "")]

/-! ## Concrete inputs used by counterexamples and witnesses -/

/-- An environment whose every listing page is long enough but yields no
records. -/
def c1Env : Env := ⟨fun _ => ⟨2000, [], none⟩, fun _ => false⟩

def c2Job (l : String) : Job := ⟨"t", "", "", "", "", l⟩

/-- An environment with two seed searches: the first yields one record,
the second yields three. -/
def c2Env : Env :=
  ⟨fun u =>
    if u = "s1" then ⟨2000, [c2Job "/a"], none⟩
    else ⟨2000, [c2Job "/b", c2Job "/c", c2Job "/d"], none⟩,
   fun _ => false⟩

def c4job : Job := ⟨"t", "", "", "", "", "/a"⟩

/-- A P0 listing input: HTTP 503 with a long body; the refetch slot holds a
403 so that consulting it would be observable. -/
def c4inp : P0In := ⟨503, 5000, 403, 100, [c4job], none, [], none⟩

def c5jobA : Job := ⟨"A", "", "", "", "", "/a"⟩
def c5jobB : Job := ⟨"B", "", "", "", "", "/b"⟩
def c5jobC : Job := ⟨"C", "", "", "", "", "/c"⟩

/-- A P1 cascade input where the embedded payload, the internal API and the
HTML heuristics would each yield one (distinct) record, with a known
buildId and a cursor past page one. -/
def c5in : CascadeInP1 :=
  ⟨some "bid", 2, [c5jobA], some "cur", [c5jobB], some "cur2", [c5jobC], none⟩

def c3meta0 : Meta := ⟨none, none, none, none, none, none, none⟩
def c3ld0 : LdJson := ⟨none, none, none, none, none, none⟩
def c3sel0 : DetailSel := ⟨"", "", "", "", "", "", "", "", ""⟩

/-- Listing metadata carrying a job type, for the merge-order check. -/
def c3metaJT : Meta := ⟨none, none, none, none, none, some "MetaType", none⟩

/-- Detail-page selector texts whose own job type is present. -/
def c3selJT : DetailSel := ⟨"", "", "", "", "DomType", "", "", "", ""⟩

/-- The interleaved-run start: two seed searches against `c2Env`. -/
def c1Start : CCrawl := ⟨initState, [CrawlTask.list "s1", CrawlTask.list "s2"], 0, 0⟩

/-- A schedule in which both listing pages run, all three admitted detail
handlers pass their guard before any completes its push, and then all
three pushes complete. -/
def c1Sched : List CAct :=
  [.task 0, .task 0, .task 0, .task 0, .task 0, .fire, .fire, .fire]

/-! # Theorems -/

/-- C9: the URL normalizer returns null exactly on absent or empty input;
an input beginning with `http` is returned unchanged; an input beginning
with `/` gains the site origin; any other non-empty input gains the origin
and a slash. -/
theorem c9_absolute_spec (href : Option String) :
    (absolute href = none ↔ href = none ∨ href = some "") ∧
    (∀ h : String, href = some h → h ≠ "" →
      (jsStartsWith h "http" = true → absolute href = some h) ∧
      (jsStartsWith h "http" = false → jsStartsWith h "/" = true →
        absolute href = some ("https://www.simplyhired.com" ++ h)) ∧
      (jsStartsWith h "http" = false → jsStartsWith h "/" = false →
        absolute href = some ("https://www.simplyhired.com/" ++ h))) := by
  constructor
  · cases href with
    | none => simp [absolute]
    | some h =>
      by_cases hh : h = ""
      · subst hh; simp [absolute]
      · simp only [absolute, if_neg hh]
        split_ifs <;> simp [hh]
  · rintro h rfl hne
    refine ⟨fun h1 => ?_, fun h1 h2 => ?_, fun h1 h2 => ?_⟩
    · simp [absolute, hne, h1]
    · simp [absolute, hne, h1, h2]
    · simp [absolute, hne, h1, h2]

/-- C9 witness: a relative href gains the site origin. -/
theorem c9_absolute_witness :
    absolute (some "/job/x") = some ("https://www.simplyhired.com" ++ "/job/x") :=
  ((c9_absolute_spec (some "/job/x")).2 "/job/x" rfl (by decide)).2.1
    (by decide) (by decide)

/-- C7: both pre-jitter backoff schedules are non-decreasing from one retry
to the next. -/
theorem c7_backoff_monotone (retry : Nat) :
    listBackoffBase retry ≤ listBackoffBase (retry + 1) ∧
    detailBackoffBase retry ≤ detailBackoffBase (retry + 1) := by
  have hp : (2 : Nat) ^ retry ≤ 2 ^ (retry + 1) :=
    Nat.pow_le_pow_right (by omega) (Nat.le_succ retry)
  exact ⟨min_le_min (le_refl 5000) (Nat.mul_le_mul (le_refl 500) hp),
         min_le_min (le_refl 6000) (Nat.mul_le_mul (le_refl 700) hp)⟩

/-- C4 (amended): the code classifies a blocked status exactly on 403 and
429 (503 is not included); the fallback refetch is triggered exactly on a
blocked status or a body shorter than 800 bytes; the backoff and identity
rotation run exactly on a blocked status. -/
theorem c4_blocked_classification (status bodyLen : Nat) :
    (isBlockedStatus status = true ↔ status = 403 ∨ status = 429) ∧
    (refetchTriggered status bodyLen = true ↔
      status = 403 ∨ status = 429 ∨ bodyLen < 800) ∧
    (backoffAndRotate status bodyLen = true ↔ status = 403 ∨ status = 429) := by
  refine ⟨?_, ?_, ?_⟩ <;>
    · simp [isBlockedStatus, refetchTriggered, backoffAndRotate, or_assoc]
      try tauto

/-- C4 counterexample: a 503 response with a long body is BLOCKED under the
claim wording but is not classified as blocked by the code, does not
trigger the refetch path, and the P0 listing handler proceeds normally
(the 403 sitting in the refetch slot is never consulted). -/
theorem c4_blocked_counterexample :
    c4ClaimBlocked 503 5000 800 = true ∧
    isBlockedStatus 503 = false ∧
    refetchTriggered 503 5000 = false ∧
    backoffAndRotate 503 5000 = false ∧
    handleListP0 ⟨200, 20⟩ ⟨0, 0, 0⟩ c4inp =
      P0Out.ok ⟨⟨1, 1, 0⟩, ["https://www.simplyhired.com" ++ "/a"], none⟩ := by
  decide

/-- C10: the qualifications field depends only on the first 15 extracted
items, never joins more than 15 of them, and is empty when no valid item
was found among them. -/
theorem c10_qualifications_cap (items : List String) :
    qualificationsField items = qualificationsField (items.take 15) ∧
    (qualificationsListOf items).length ≤ 15 ∧
    ((items.take 15).filter (fun q => validQual q) = [] →
      qualificationsField items = "") := by
  refine ⟨?_, ?_, ?_⟩
  · simp [qualificationsField, qualificationsListOf, List.take_take]
  · calc (qualificationsListOf items).length
        ≤ (items.take 15).length := List.length_filter_le _ _
      _ ≤ 15 := List.length_take_le _ _
  · intro h
    simp [qualificationsField, qualificationsListOf, h]

/-- C10 witness: two invalid items yield the empty field. -/
theorem c10_qualifications_witness :
    qualificationsField ["", "css-x"] = "" :=
  (c10_qualifications_cap ["", "css-x"]).2.2 (by decide)

/-- When the embedded payload produced at least one record, the P1 cascade
keeps it unless the internal API is consulted and returns records. -/
theorem cascadeP1_of_ndJobs (c : CascadeInP1) (h : c.ndJobs ≠ []) :
    cascadeP1 c =
      if ((strTruthy c.buildId && (strTruthy c.ndCursor && decide (1 < c.pages)))
          && !c.apiJobs.isEmpty) = true then
        (c.apiJobs, c.apiCursor, none)
      else (c.ndJobs, c.ndCursor, none) := by
  have hne : c.ndJobs.isEmpty = false := by
    simpa [List.isEmpty_iff] using h
  simp only [cascadeP1, if_neg h, hne, Bool.false_or]
  by_cases hu : ((strTruthy c.buildId &&
      (strTruthy c.ndCursor && decide (1 < c.pages))) && !c.apiJobs.isEmpty) = true
  · have h2 : c.apiJobs.isEmpty = false := by
      cases hb : c.apiJobs.isEmpty
      · rfl
      · rw [hb] at hu; simp at hu
    have hapi : c.apiJobs ≠ [] := by
      simpa [List.isEmpty_iff] using h2
    simp only [if_pos hu]
    rw [if_neg hapi]
  · simp only [if_neg hu]
    rw [if_neg h]

/-- C5 (amended): when both the embedded-JSON strategy and the HTML
strategy would produce at least one record, the P0 cascade returns exactly
the embedded-JSON output; the P1 cascade returns the embedded-JSON output
unless the internal API strategy is consulted (buildId known, truthy
cursor, page counter past one) and itself returns records, in which case
the API output replaces it; in either case the P1 output is independent of
the HTML strategy, so HTML records are never merged in. -/
theorem c5_cascade_precedence
    (jsonJobs htmlJobs : List Job) (jsonNextUrl htmlNextUrl : Option String)
    (hjson : jsonJobs ≠ []) (_hhtml : htmlJobs ≠ []) :
    cascadeP0 jsonJobs jsonNextUrl htmlJobs htmlNextUrl = (jsonJobs, jsonNextUrl) ∧
    (∀ c : CascadeInP1, c.ndJobs ≠ [] →
      ((cascadeP1 c).1 = c.ndJobs ∨
        ((cascadeP1 c).1 = c.apiJobs ∧ strTruthy c.buildId = true ∧
          strTruthy c.ndCursor = true ∧ 1 < c.pages ∧ c.apiJobs ≠ [])) ∧
      ∀ hJobs hNextUrl,
        cascadeP1 { c with htmlJobs := hJobs, htmlNextUrl := hNextUrl } =
          cascadeP1 c) := by
  constructor
  · simp [cascadeP0, hjson]
  · intro c hnd
    constructor
    · rw [cascadeP1_of_ndJobs c hnd]
      by_cases hu : ((strTruthy c.buildId &&
          (strTruthy c.ndCursor && decide (1 < c.pages))) && !c.apiJobs.isEmpty) = true
      · right
        rw [if_pos hu]
        refine ⟨rfl, ?_, ?_, ?_, ?_⟩
        · have := (Bool.and_eq_true _ _).mp ((Bool.and_eq_true _ _).mp hu).1
          exact this.1
        · have := (Bool.and_eq_true _ _).mp
            ((Bool.and_eq_true _ _).mp ((Bool.and_eq_true _ _).mp hu).1).2
          exact this.1
        · have := (Bool.and_eq_true _ _).mp
            ((Bool.and_eq_true _ _).mp ((Bool.and_eq_true _ _).mp hu).1).2
          exact of_decide_eq_true this.2
        · have h2 := ((Bool.and_eq_true _ _).mp hu).2
          intro hcon
          rw [hcon] at h2
          simp at h2
      · left
        rw [if_neg hu]
    · intro hJobs hNextUrl
      have hnd' : ({ c with htmlJobs := hJobs, htmlNextUrl := hNextUrl } : CascadeInP1).ndJobs ≠ [] := hnd
      rw [cascadeP1_of_ndJobs _ hnd', cascadeP1_of_ndJobs c hnd]

/-- C5 counterexample: with a known buildId, a cursor past page one and all
three strategies succeeding, the P1 cascade returns the internal-API
records rather than the embedded-JSON records. -/
theorem c5_cascade_counterexample :
    c5in.ndJobs ≠ [] ∧ c5in.htmlJobs ≠ [] ∧
    (cascadeP1 c5in).1 = [c5jobB] ∧ (cascadeP1 c5in).1 ≠ c5in.ndJobs := by
  decide

/-- C5 witness: the P0 cascade keeps the embedded-JSON output when both
strategies succeed. -/
theorem c5_cascade_witness :
    cascadeP0 [c5jobA] none [c5jobC] none = ([c5jobA], none) :=
  (c5_cascade_precedence [c5jobA] [c5jobC] none none (by decide) (by decide)).1

/-- The imperative `URLSearchParams` construction of main.js equals the
declarative parameter list of the claim. -/
theorem mkParamsMain_eq_claim (k l d : String) :
    mkParamsMain k l d = c8ClaimParams k l d := by
  by_cases hk : k = "" <;> by_cases hl : l = "" <;>
    by_cases hd : d ≠ "" ∧ d ≠ "any" <;>
      simp [mkParamsMain, c8ClaimParams, uspSet, hk, hl, hd]

/-- C8: seed construction yields exactly one URL per entry of the
comma-split keyword list, each the search path carrying the keyword as `q`
(when non-empty), the location or the remote sentinel as `l` (when
non-empty) and the freshness filter as `fdb` only when set and not `any`
(the code always appends one further empty `job` parameter). -/
theorem c8_seed_urls (keywords location datePosted : String) (remoteOnly : Bool) :
    buildSearchUrlsMain keywords location datePosted remoteOnly =
      (keywordListMain keywords).map (fun k =>
        searchBase ++ "?" ++
          uspToString (c8ClaimParams k (locationParamMain location remoteOnly) datePosted)) ∧
    (keywordListMain keywords).length =
      (if keywords = "" then 1 else (keywords.splitOn ",").length) := by
  constructor
  · simp only [buildSearchUrlsMain, mkParamsMain_eq_claim]
  · by_cases hk : keywords = "" <;> simp [keywordListMain, hk]

/-- C3 (amended): every persisted object defines all eleven schema fields
as strings, and when every candidate for a field is absent the field
equals its defined sentinel; each field is filled by a per-field fallback
chain over the detail-stage and listing-stage candidates (the order is not
uniformly detail-first).  The success paths also define `benefits` and
`qualifications`, but the part_001 catch fallback omits those two keys, so
the field set is not uniform across persistence paths. -/
theorem c3_assembled_fields (ld : LdJson) (sel : DetailSel) (meta : Meta)
    (url now : String) :
    ((detailRecordP1 ld sel meta url now).url.isSome = true ∧
      (detailRecordP1 ld sel meta url now).title.isSome = true ∧
      (detailRecordP1 ld sel meta url now).company.isSome = true ∧
      (detailRecordP1 ld sel meta url now).location.isSome = true ∧
      (detailRecordP1 ld sel meta url now).salary.isSome = true ∧
      (detailRecordP1 ld sel meta url now).job_type.isSome = true ∧
      (detailRecordP1 ld sel meta url now).date_posted.isSome = true ∧
      (detailRecordP1 ld sel meta url now).description_text.isSome = true ∧
      (detailRecordP1 ld sel meta url now).description_html.isSome = true ∧
      (detailRecordP1 ld sel meta url now).benefits.isSome = true ∧
      (detailRecordP1 ld sel meta url now).qualifications.isSome = true ∧
      (detailRecordP1 ld sel meta url now).source.isSome = true ∧
      (detailRecordP1 ld sel meta url now).scraped_at.isSome = true) ∧
    ((fallbackRecordP1 meta url now).url.isSome = true ∧
      (fallbackRecordP1 meta url now).title.isSome = true ∧
      (fallbackRecordP1 meta url now).company.isSome = true ∧
      (fallbackRecordP1 meta url now).location.isSome = true ∧
      (fallbackRecordP1 meta url now).salary.isSome = true ∧
      (fallbackRecordP1 meta url now).job_type.isSome = true ∧
      (fallbackRecordP1 meta url now).date_posted.isSome = true ∧
      (fallbackRecordP1 meta url now).description_text.isSome = true ∧
      (fallbackRecordP1 meta url now).description_html.isSome = true ∧
      (fallbackRecordP1 meta url now).source.isSome = true ∧
      (fallbackRecordP1 meta url now).scraped_at.isSome = true ∧
      (fallbackRecordP1 meta url now).benefits = none ∧
      (fallbackRecordP1 meta url now).qualifications = none) ∧
    (∀ t c lo s jt dp b q dt dh u n : String,
      (jobDataMain t c lo s jt dp b q dt dh u n).url.isSome = true ∧
      (jobDataMain t c lo s jt dp b q dt dh u n).title.isSome = true ∧
      (jobDataMain t c lo s jt dp b q dt dh u n).company.isSome = true ∧
      (jobDataMain t c lo s jt dp b q dt dh u n).location.isSome = true ∧
      (jobDataMain t c lo s jt dp b q dt dh u n).salary.isSome = true ∧
      (jobDataMain t c lo s jt dp b q dt dh u n).job_type.isSome = true ∧
      (jobDataMain t c lo s jt dp b q dt dh u n).date_posted.isSome = true ∧
      (jobDataMain t c lo s jt dp b q dt dh u n).description_text.isSome = true ∧
      (jobDataMain t c lo s jt dp b q dt dh u n).description_html.isSome = true ∧
      (jobDataMain t c lo s jt dp b q dt dh u n).benefits.isSome = true ∧
      (jobDataMain t c lo s jt dp b q dt dh u n).qualifications.isSome = true ∧
      (jobDataMain t c lo s jt dp b q dt dh u n).source.isSome = true ∧
      (jobDataMain t c lo s jt dp b q dt dh u n).scraped_at.isSome = true) ∧
    (ld.title = none → sel.h1 = "" → meta.title = none →
      (detailRecordP1 ld sel meta url now).title = some "N/A") ∧
    (ld.salary = none → sel.salaryTxt = "" → meta.salary = none →
      (detailRecordP1 ld sel meta url now).salary = some "N/A") ∧
    (meta.title = none → (fallbackRecordP1 meta url now).title = some "N/A") ∧
    (meta.salary = none → (fallbackRecordP1 meta url now).salary = some "") ∧
    (meta.summary = none →
      (fallbackRecordP1 meta url now).description_text = some "N/A" ∧
      (fallbackRecordP1 meta url now).description_html = some "") := by
  refine ⟨⟨rfl, rfl, rfl, rfl, rfl, rfl, rfl, rfl, rfl, rfl, rfl, rfl, rfl⟩,
    ⟨rfl, rfl, rfl, rfl, rfl, rfl, rfl, rfl, rfl, rfl, rfl, rfl, rfl⟩,
    fun _ _ _ _ _ _ _ _ _ _ _ _ =>
      ⟨rfl, rfl, rfl, rfl, rfl, rfl, rfl, rfl, rfl, rfl, rfl, rfl, rfl⟩,
    ?_, ?_, ?_, ?_, ?_⟩
  · intro h1 h2 h3
    simp only [detailRecordP1]
    rw [h1, h2, h3]
    decide
  · intro h1 h2 h3
    simp only [detailRecordP1]
    rw [h1, h2, h3]
    decide
  · intro h1
    simp only [fallbackRecordP1]
    rw [h1]
    decide
  · intro h1
    simp only [fallbackRecordP1]
    rw [h1]
    decide
  · intro h1
    simp only [fallbackRecordP1]
    rw [h1]
    exact ⟨by decide, by decide⟩

/-- C3 counterexample.  First: on the part_001 catch-fallback path the
persisted object has no `benefits` and no `qualifications` field, while
the success path of the same handler defines both, so the field set
differs between persistence paths and those two fields are left undefined
on the fallback path.  Second: the merge order is not detail-first for
every field — with a job type present on the detail page itself
(`DomType`), the part_001 success path still persists the listing-stage
value (`MetaType`), because the code reads `meta.job_type` before the
detail-page value. -/
theorem c3_assembled_counterexample :
    ((fallbackRecordP1 c3meta0 "https://x" "2025-01-01T00:00:00Z").benefits = none ∧
      (fallbackRecordP1 c3meta0 "https://x" "2025-01-01T00:00:00Z").qualifications = none ∧
      (detailRecordP1 c3ld0 c3sel0 c3meta0 "https://x" "2025-01-01T00:00:00Z").benefits = some "" ∧
      (detailRecordP1 c3ld0 c3sel0 c3meta0 "https://x" "2025-01-01T00:00:00Z").qualifications = some "") ∧
    (c3selJT.jobTypeTxt = "DomType" ∧ c3selJT.jobTypeTxt ≠ "" ∧
      (detailRecordP1 c3ld0 c3selJT c3metaJT "https://x" "2025-01-01T00:00:00Z").job_type =
        some "MetaType") :=
  ⟨⟨rfl, rfl, rfl, rfl⟩, ⟨rfl, by decide, by decide⟩⟩

/-- C3 witness: the sentinel conclusions instantiated at all-absent
inputs. -/
theorem c3_assembled_witness :
    (detailRecordP1 c3ld0 c3sel0 c3meta0 "u" "t").title = some "N/A" ∧
    (fallbackRecordP1 c3meta0 "u" "t").salary = some "" := by
  have h := c3_assembled_fields c3ld0 c3sel0 c3meta0 "u" "t"
  exact ⟨h.2.2.2.1 rfl rfl rfl, h.2.2.2.2.2.2.1 rfl⟩

/-- The listing handler never changes the persisted-records counter. -/
theorem handleList_savedJobs (cfg : Config) (env : Env) (st : CrawlState)
    (url : String) :
    (handleList cfg env st url).1.savedJobs = st.savedJobs := by
  simp only [handleList]
  split_ifs <;> rfl

/-- A listing handler entered once the page counter has reached the limit
only increments that counter and enqueues nothing. -/
theorem handleList_after_limit (cfg : Config) (env : Env) (st : CrawlState)
    (url : String) (h : cfg.maxPages ≤ st.pagesProcessed) :
    handleList cfg env st url =
      ({ st with pagesProcessed := st.pagesProcessed + 1 }, []) := by
  simp only [handleList]
  split_ifs with h1 h2 <;> first | rfl | omega

/-- Completing a suspended save increments the persisted counter by one,
unconditionally. -/
theorem detailFinish_savedJobs (cfg : Config) (st : CrawlState) :
    (detailFinish cfg st).savedJobs = st.savedJobs + 1 := by
  simp only [detailFinish]
  split_ifs <;> rfl

/-- Every interleaved action preserves the concurrent saved-records
invariant. -/
theorem cstep_savedInv (cfg : Config) (env : Env) (c : CCrawl) (a : CAct)
    (h : savedInv cfg c) : savedInv cfg (cstep cfg env c a) := by
  cases a with
  | task i =>
    cases hq : c.queued[i]? with
    | none =>
      simpa only [cstep, hq] using h
    | some t =>
      cases t with
      | list url =>
        simp only [cstep, hq]
        rcases h with ⟨hs, hp⟩ | h
        · exact Or.inl ⟨by rw [handleList_savedJobs]; exact hs, hp⟩
        · exact Or.inr (by rw [handleList_savedJobs]; exact h)
      | detail url =>
        simp only [cstep, hq]
        split_ifs with h1 h2
        · exact h
        · exact h
        · right
          have h1' : c.st.savedJobs < cfg.maxJobs := by
            rcases not_or.mp h1 with ⟨hle, -⟩
            omega
          have hmx : c.pending + 1 ≤ max c.peak (c.pending + 1) :=
            le_max_right _ _
          show c.st.savedJobs + (c.pending + 1) + 1 ≤
            cfg.maxJobs + max c.peak (c.pending + 1)
          omega
  | fire =>
    cases hp : c.pending with
    | zero =>
      simpa only [cstep, hp] using h
    | succ p =>
      simp only [cstep, hp]
      right
      show (detailFinish cfg c.st).savedJobs + p + 1 ≤ cfg.maxJobs + c.peak
      rw [detailFinish_savedJobs]
      rcases h with ⟨hs, hpp⟩ | h
      · rw [hpp] at hp
        cases hp
      · rw [hp] at h
        omega

/-- The concurrent saved-records invariant holds along every schedule. -/
theorem crun_savedInv (cfg : Config) (env : Env) (sched : List CAct)
    (c : CCrawl) (h : savedInv cfg c) :
    savedInv cfg (crun cfg env c sched) := by
  induction sched generalizing c with
  | nil => exact h
  | cons a acts ih => exact ih _ (cstep_savedInv cfg env c a h)

/-- Under the invariant, the claimed bound holds exactly when no two
detail handlers were ever simultaneously suspended between guard and
increment. -/
theorem savedInv_peak_le_one {cfg : Config} {c : CCrawl}
    (h : savedInv cfg c) (hk : c.peak ≤ 1) :
    c.st.savedJobs ≤ cfg.maxJobs := by
  rcases h with ⟨hs, -⟩ | h <;> omega

/-- C1 (amended): over every interleaving of the crawl, the persisted
count plus the suspended saves stays below the target plus the peak
number of detail handlers simultaneously suspended between their entry
guard and their post-push increment; hence persisted records exceed the
target only when at least two detail handlers interleave there, and with
no such interleaving (peak at most one, as in any sequential execution)
the persisted count never exceeds the target.  A listing handler entered
after the page limit does nothing beyond incrementing the page-visit
counter, which is incremented before the limit check and is therefore not
itself bounded by the limit. -/
theorem c1_persisted_and_pages_bounds (cfg : Config) (env : Env)
    (c0 : CCrawl) (sched : List CAct) (h0 : savedInv cfg c0) :
    savedInv cfg (crun cfg env c0 sched) ∧
    ((crun cfg env c0 sched).peak ≤ 1 →
      (crun cfg env c0 sched).st.savedJobs ≤ cfg.maxJobs) ∧
    (∀ st url, cfg.maxPages ≤ st.pagesProcessed →
      handleList cfg env st url =
        ({ st with pagesProcessed := st.pagesProcessed + 1 }, [])) :=
  ⟨crun_savedInv cfg env sched c0 h0,
   fun hk => savedInv_peak_le_one (crun_savedInv cfg env sched c0 h0) hk,
   fun st url h => handleList_after_limit cfg env st url h⟩

/-- C1 witness: the bound instantiated on a concrete run with peak at most
one, and a post-limit listing entry at a concrete state. -/
theorem c1_bounds_witness :
    (crun ⟨2, 20⟩ c2Env ⟨initState, [], 0, 0⟩ []).st.savedJobs ≤ 2 ∧
    handleList ⟨2, 20⟩ c2Env ⟨0, 20, 0, false⟩ "x" = (⟨0, 21, 0, false⟩, []) := by
  have h := c1_persisted_and_pages_bounds ⟨2, 20⟩ c2Env ⟨initState, [], 0, 0⟩ []
    (Or.inl ⟨rfl, rfl⟩)
  exact ⟨h.2.1 (by decide), h.2.2 ⟨0, 20, 0, false⟩ "x" (by decide)⟩

/-- C1 counterexample.  First half: a realizable interleaving (two seed
searches, target 2; the three admitted detail handlers all pass their
entry guard before any completes its awaited push) persists 3 records,
exceeding the target.  Second half: with two seed searches and a page
limit of one, both listing pages are visited and counted, so the
page-visit counter ends at 2, exceeding the configured limit. -/
theorem c1_bounds_counterexample :
    ((crun ⟨2, 20⟩ c2Env c1Start c1Sched).st.savedJobs = 3 ∧
      ¬((crun ⟨2, 20⟩ c2Env c1Start c1Sched).st.savedJobs ≤
        (Config.mk 2 20).maxJobs)) ∧
    ((runCrawl ⟨200, 1⟩ c1Env 2
      (initState, [CrawlTask.list "a", CrawlTask.list "b"])).1.pagesProcessed = 2 ∧
      ¬((runCrawl ⟨200, 1⟩ c1Env 2
        (initState, [CrawlTask.list "a", CrawlTask.list "b"])).1.pagesProcessed ≤
          (Config.mk 200 1).maxPages)) := by
  decide

/-- C2 (amended): a listing page that passes the early-exit guards admits
exactly `min(n, max(0, target - recordsPersisted))` of its `n` records as
detail tasks; in-flight detail tasks are not subtracted. -/
theorem c2_admission_formula (cfg : Config) (env : Env) (st : CrawlState)
    (url : String)
    (h1 : st.jobsProcessed < cfg.maxJobs) (h2 : st.crawlerTerminated = false)
    (h3 : st.pagesProcessed + 1 ≤ cfg.maxPages)
    (h4 : 1000 ≤ (env.listing url).htmlLen)
    (h5 : (env.listing url).jobs ≠ []) :
    (handleList cfg env st url).1.jobsProcessed =
      st.jobsProcessed +
        admitMain (env.listing url).jobs.length cfg.maxJobs st.savedJobs := by
  simp only [handleList]
  rw [if_neg (by rw [h2]; push_neg; exact ⟨by omega, by simp⟩),
      if_neg (by omega), if_neg (by omega), if_neg h5]
  split_ifs with hc h6
  · rcases hc with hc | hc
    · simp [admitMain, remainingCapacityMain, hc]
    · rw [h2] at hc
      exact absurd hc (by simp)
  · rfl
  · rfl

/-- C2 witness: the admission formula at a concrete state. -/
theorem c2_admission_witness :
    (handleList ⟨3, 20⟩ c2Env initState "s1").1.jobsProcessed =
      initState.jobsProcessed +
        admitMain (c2Env.listing "s1").jobs.length 3 initState.savedJobs :=
  c2_admission_formula ⟨3, 20⟩ c2Env initState "s1" (by decide) rfl
    (by decide) (by decide) (by decide)

/-- C2 counterexample: with target 3, a first page admitting one record
(now in flight) and a second page offering three, the code admits all
three because it subtracts only persisted records, so persisted plus
in-flight reaches 4 > 3; the claim formula would have admitted 2. -/
theorem c2_admission_counterexample :
    ((runCrawl ⟨3, 20⟩ c2Env 2
      (initState, [CrawlTask.list "s1", CrawlTask.list "s2"])).1.jobsProcessed = 4) ∧
    ((runCrawl ⟨3, 20⟩ c2Env 2
      (initState, [CrawlTask.list "s1", CrawlTask.list "s2"])).1.savedJobs = 0) ∧
    admitClaim 3 3 0 1 = 2 ∧
    admitMain 3 3 0 = 3 := by
  decide

/-- C6: a successfully fetched listing page from which no strategy
extracts any record makes the handler return normally: the P0 handler
(whose blocked path is a thrown error) returns `ok` with nothing enqueued,
and the main.js handler returns with nothing enqueued; only the page
counter advances. -/
theorem c6_nodata_skip :
    (∀ (cfg : Config) (st : P0State) (inp : P0In),
      isBlockedStatus (finalStatusP0 inp) = false →
      inp.jsonJobs = [] → inp.htmlJobs = [] →
      handleListP0 cfg st inp =
        P0Out.ok ⟨{ st with pagesProcessed := st.pagesProcessed + 1 }, [], none⟩) ∧
    (∀ (cfg : Config) (env : Env) (st : CrawlState) (url : String),
      (env.listing url).jobs = [] →
      handleList cfg env st url =
        ({ st with pagesProcessed := st.pagesProcessed + 1 }, [])) := by
  constructor
  · intro cfg st inp hok hj hh
    simp only [handleListP0, cascadeP0, hj, hh, hok]
    split_ifs <;> simp_all
  · intro cfg env st url hj
    simp only [handleList, hj]
    split_ifs <;> rfl

/-- C6 witness: a clean fetch with empty extraction results returns
normally with nothing enqueued. -/
theorem c6_nodata_witness :
    handleListP0 ⟨200, 20⟩ ⟨0, 0, 0⟩ ⟨200, 5000, 200, 5000, [], none, [], none⟩ =
      P0Out.ok ⟨⟨1, 0, 0⟩, [], none⟩ :=
  c6_nodata_skip.1 ⟨200, 20⟩ ⟨0, 0, 0⟩ ⟨200, 5000, 200, 5000, [], none, [], none⟩
    (by decide) rfl rfl

end SH
